import Mathlib

/-!
Verification of the page-readiness / banner-dismissal protocol and the
accessibility-severity gating policy of the Playwright end-to-end suite.

The development shallowly embeds the two facilities of the suite:

* the Accessibility Audit Gate, the body of the test helper checkA11y in
  tests/navigation.spec.ts: run the axe analysis, filter the violations whose
  impact is the string "critical", log a one-line diagnostic when the
  violation list is nonempty, and assert that the critical count is zero with
  the message "Critical a11y violations on <context>";

* the Page-Readiness Gate, the helper dismissCookieBanner (four copies across
  tests/utils.ts, the unnamed module, tests/homepage.spec.ts and
  tests/data-model-blueprint.spec.ts) together with the click-visualizer
  instrumentation of tests/utils.ts.

The browser-automation substrate is modelled over discrete time: a page
environment says, as a function of the clicks performed so far and the
current instant, whether the "allow all" control is visible, and whether a
click issued now succeeds.  Playwright's locator.waitFor is a fuel-bounded
poll that advances the clock one unit per probe.
-/

/-! ## Accessibility Audit Gate (checkA11y, tests/navigation.spec.ts) -/

/-- One axe-core finding, the shape `{id, description, helpUrl, impact,
nodes[]}` consumed by checkA11y.  The impact field is optional, as in axe,
and is compared against the string "critical" exactly as the source's
`v.impact === "critical"` does. -/
structure Violation where
  id : String
  description : String
  helpUrl : String
  impact : Option String
  nodes : List String
deriving DecidableEq, Repr

/-- The record a failing Playwright `expect(actual, message).toBe(expected)`
carries: the custom message, the received value and the expected value. -/
structure ExpectFailure where
  message : String
  actual : Nat
  expected : Nat
deriving DecidableEq, Repr

/-- Observable outcome of one checkA11y run: the console line (if any was
printed), the pass flag, and the assertion failure record (if any). -/
structure A11yOutcome where
  logged : Option String
  passed : Bool
  failure : Option ExpectFailure
deriving DecidableEq, Repr

/-- `results.violations.filter((v) => v.impact === "critical")`. -/
def criticalViolations (violations : List Violation) : List Violation :=
  violations.filter (fun v => v.impact == some "critical")

/-- The severity-gating body of checkA11y (tests/navigation.spec.ts, lines
143-158), applied to the violation list the axe analysis returned: filter the
critical findings, log `[A11y] <context>: <n> violations` when the list is
nonempty, and assert `expect(critical.length, "Critical a11y violations on
<context>").toBe(0)`. -/
def checkA11y (contextName : String) (violations : List Violation) : A11yOutcome :=
  let critical := criticalViolations violations
  { logged :=
      if violations.length > 0 then
        some ("[A11y] " ++ contextName ++ ": " ++ toString violations.length ++ " violations")
      else
        none
    passed := critical.length == 0
    failure :=
      if critical.length == 0 then
        none
      else
        some { message := "Critical a11y violations on " ++ contextName
               actual := critical.length
               expected := 0 } }

/-- A finding with critical impact, used as a concrete audit input. -/
def exCritical : Violation :=
  { id := "image-alt"
    description := "Images must have alternate text"
    helpUrl := "https://dequeuniversity.com/rules/axe/4.4/image-alt"
    impact := some "critical"
    nodes := ["img.hero"] }

/-- A first finding with minor impact, used as a concrete audit input. -/
def exMinorA : Violation :=
  { id := "tabindex"
    description := "Elements should not have tabindex greater than zero"
    helpUrl := "https://dequeuniversity.com/rules/axe/4.4/tabindex"
    impact := some "minor"
    nodes := ["div.nav"] }

/-- A second finding with minor impact, used as a concrete audit input. -/
def exMinorB : Violation :=
  { id := "region"
    description := "All page content should be contained by landmarks"
    helpUrl := "https://dequeuniversity.com/rules/axe/4.4/region"
    impact := some "minor"
    nodes := ["span.badge"] }

/-- Claim C1: the Accessibility Audit Gate fails if and only if the number of
findings whose severity is critical is positive; findings of any other
severity never cause failure, regardless of their number. -/
theorem checkA11y_fails_iff_critical (contextName : String) (violations : List Violation) :
    (checkA11y contextName violations).passed = false ↔
      0 < violations.countP (fun v => v.impact == some "critical") := by
  simp only [checkA11y, criticalViolations, List.countP_eq_length_filter,
    beq_eq_false_iff_ne, ne_eq, Nat.pos_iff_ne_zero]

/-- Claim C3 counterexample: an audit run with an empty finding list passes
and emits no diagnostic record at all, so the emission does not occur
"whether the gate passes or fails"; checkA11y only logs when
`results.violations.length > 0`. -/
theorem checkA11y_no_log_on_empty :
    (checkA11y "Homepage" []).passed = true ∧ (checkA11y "Homepage" []).logged = none := by
  constructor <;> rfl

/-- Claim C3 (amended): the diagnostic record is emitted exactly when the raw
finding list is nonempty — in particular both on passing runs with findings
and on failing runs — and the record is the single line
`[A11y] <context>: <n> violations` whose reported count n is the length of
the raw finding list (no findings dropped, but also no per-severity counts
and no per-finding rule id, description, help reference or node
descriptors). -/
theorem checkA11y_log_iff_nonempty (contextName : String) (violations : List Violation) :
    (checkA11y contextName violations).logged =
        some ("[A11y] " ++ contextName ++ ": " ++ toString violations.length ++ " violations")
      ↔ violations ≠ [] := by
  simp only [checkA11y]
  rcases violations with _ | ⟨v, vs⟩
  · simp
  · simp [Nat.succ_ne_zero]

/-- A second finding with critical impact, used as a concrete audit input. -/
def exCritical2 : Violation :=
  { id := "button-name"
    description := "Buttons must have discernible text"
    helpUrl := "https://dequeuniversity.com/rules/axe/4.4/button-name"
    impact := some "critical"
    nodes := ["button.close"] }

/-- Claim C6 counterexample: on the spec's own example input — one critical
and two minor findings — the gate does fail, but the failure message is the
fixed string "Critical a11y violations on Homepage", not the message the
claim quotes: the same message is produced verbatim for an input with two
critical findings, so the message cannot state the critical violation count;
the numeric count travels only as the asserted actual value. -/
theorem checkA11y_message_states_no_count :
    (checkA11y "Homepage" [exCritical, exMinorA, exMinorB]).passed = false ∧
    (checkA11y "Homepage" [exCritical, exMinorA, exMinorB]).failure =
      some { message := "Critical a11y violations on Homepage", actual := 1, expected := 0 } ∧
    (checkA11y "Homepage" [exCritical, exCritical2, exMinorA]).failure =
      some { message := "Critical a11y violations on Homepage", actual := 2, expected := 0 } ∧
    "Critical a11y violations on Homepage" ≠ "1 critical accessibility violation(s)" := by
  refine ⟨rfl, rfl, rfl, ?_⟩
  decide

/-- Claim C6 (amended): whenever the critical finding count is nonzero, the
gate fails with a failure record that carries the page context identifier in
its message ("Critical a11y violations on <context>") and the critical count
as the asserted actual value (against expected 0); the message text itself
does not state the numeric count. -/
theorem checkA11y_failure_carries_context_and_count (contextName : String)
    (violations : List Violation) (h : 0 < (criticalViolations violations).length) :
    (checkA11y contextName violations).passed = false ∧
    (checkA11y contextName violations).failure =
      some { message := "Critical a11y violations on " ++ contextName
             actual := (criticalViolations violations).length
             expected := 0 } := by
  have hne : ((criticalViolations violations).length == 0) = false := by
    simp [Nat.pos_iff_ne_zero.mp h]
  constructor
  · simp [checkA11y, hne]
  · simp [checkA11y, hne]

/-- Witness for the amended Claim C6 theorem at the concrete input of one
critical and two minor findings. -/
theorem checkA11y_failure_carries_context_and_count_witness :
    0 < (criticalViolations [exCritical, exMinorA, exMinorB]).length ∧
    ((checkA11y "Homepage" [exCritical, exMinorA, exMinorB]).passed = false ∧
     (checkA11y "Homepage" [exCritical, exMinorA, exMinorB]).failure =
       some { message := "Critical a11y violations on " ++ "Homepage"
              actual := (criticalViolations [exCritical, exMinorA, exMinorB]).length
              expected := 0 }) :=
  ⟨by decide, checkA11y_failure_carries_context_and_count "Homepage"
    [exCritical, exMinorA, exMinorB] (by decide)⟩

/-! ## Page model for the banner-dismissal gate

A page environment describes the one control the gate touches: the button
located by `page.getByRole("button", { name: /allow all/i })`.  Visibility of
that control may depend on the clicks performed so far (clicking it is what
normally hides it) and on the current instant; a click issued at an instant
may succeed or throw (for Playwright, e.g. on detachment).  The page state
the gate can affect is the clock and the list of instants at which the
control was clicked. -/

/-- The opaque website behind a page handle, restricted to the observables
the gate uses: visibility of the "allow all" control as a function of the
clicks performed so far and the time, and whether a click issued at a given
time succeeds. -/
structure PageEnv where
  visible : List Nat → Nat → Bool
  clickOk : Nat → Bool

/-- The page state the gate can read or change: the clock and the instants
at which the "allow all" control has been clicked. -/
structure PageState where
  time : Nat
  clicks : List Nat
deriving DecidableEq, Repr

/-- The exceptions the automation substrate can raise inside the gate. -/
inductive PwError where
  | timeout
  | clickError
deriving DecidableEq, Repr

/-- Whether a call returned normally or an exception is propagating. -/
inductive Outcome where
  | ok
  | thrown (e : PwError)
deriving DecidableEq, Repr

/-- `locator.waitFor`: poll the predicate once per time unit for `fuel`
probes; return the instant of the first success paired with `true`, or the
instant after the last probe paired with `false` on timeout. -/
def waitFor (p : Nat → Bool) : Nat → Nat → Nat × Bool
  | 0, t => (t, false)
  | fuel + 1, t => if p t then (t, true) else waitFor p fuel (t + 1)

/-- `allowBtn.click()`: at the current instant, either record the click and
succeed, or throw without changing the page. -/
def clickAllowAll (env : PageEnv) (s : PageState) : PageState × Bool :=
  if env.clickOk s.time then ({ s with clicks := s.clicks ++ [s.time] }, true)
  else (s, false)

namespace Utils

/-- The try-block of dismissCookieBanner in tests/utils.ts (lines 141-145):
wait up to 5000 for the "allow all" control to be visible, click it, then
wait up to 3000 for it to be hidden; any step may throw. -/
def tryDismissCookieBanner (env : PageEnv) (s : PageState) : PageState × Outcome :=
  match waitFor (fun t => env.visible s.clicks t) 5000 s.time with
  | (t1, false) => ({ s with time := t1 }, Outcome.thrown PwError.timeout)
  | (t1, true) =>
    match clickAllowAll env { s with time := t1 } with
    | (s2, false) => (s2, Outcome.thrown PwError.clickError)
    | (s2, true) =>
      match waitFor (fun t => !env.visible s2.clicks t) 3000 s2.time with
      | (t3, false) => ({ s2 with time := t3 }, Outcome.thrown PwError.timeout)
      | (t3, true) => ({ s2 with time := t3 }, Outcome.ok)

/-- dismissCookieBanner in tests/utils.ts (lines 140-149): the try-block
under a catch-all that swallows any exception. -/
def dismissCookieBanner (env : PageEnv) (s : PageState) : PageState × Outcome :=
  match tryDismissCookieBanner env s with
  | (s1, Outcome.ok) => (s1, Outcome.ok)
  | (s1, Outcome.thrown _) => (s1, Outcome.ok)

end Utils

namespace Part000

/-- The try-block of dismissCookieBanner in the unnamed module
(src/unnamed/part_000, lines 15-22): same locator, 5000 visible-wait, click,
3000 hidden-wait. -/
def tryDismissCookieBanner (env : PageEnv) (s : PageState) : PageState × Outcome :=
  match waitFor (fun t => env.visible s.clicks t) 5000 s.time with
  | (t1, false) => ({ s with time := t1 }, Outcome.thrown PwError.timeout)
  | (t1, true) =>
    match clickAllowAll env { s with time := t1 } with
    | (s2, false) => (s2, Outcome.thrown PwError.clickError)
    | (s2, true) =>
      match waitFor (fun t => !env.visible s2.clicks t) 3000 s2.time with
      | (t3, false) => ({ s2 with time := t3 }, Outcome.thrown PwError.timeout)
      | (t3, true) => ({ s2 with time := t3 }, Outcome.ok)

/-- dismissCookieBanner in src/unnamed/part_000 (lines 12-27): the try-block
under a catch (error) that swallows any exception. -/
def dismissCookieBanner (env : PageEnv) (s : PageState) : PageState × Outcome :=
  match tryDismissCookieBanner env s with
  | (s1, Outcome.ok) => (s1, Outcome.ok)
  | (s1, Outcome.thrown _) => (s1, Outcome.ok)

end Part000

namespace HomepageSpec

/-- The try-block of the local dismissCookieBanner in
tests/homepage.spec.ts (lines 20-24). -/
def tryDismissCookieBanner (env : PageEnv) (s : PageState) : PageState × Outcome :=
  match waitFor (fun t => env.visible s.clicks t) 5000 s.time with
  | (t1, false) => ({ s with time := t1 }, Outcome.thrown PwError.timeout)
  | (t1, true) =>
    match clickAllowAll env { s with time := t1 } with
    | (s2, false) => (s2, Outcome.thrown PwError.clickError)
    | (s2, true) =>
      match waitFor (fun t => !env.visible s2.clicks t) 3000 s2.time with
      | (t3, false) => ({ s2 with time := t3 }, Outcome.thrown PwError.timeout)
      | (t3, true) => ({ s2 with time := t3 }, Outcome.ok)

/-- dismissCookieBanner in tests/homepage.spec.ts (lines 19-28): the
try-block under a catch-all that swallows any exception. -/
def dismissCookieBanner (env : PageEnv) (s : PageState) : PageState × Outcome :=
  match tryDismissCookieBanner env s with
  | (s1, Outcome.ok) => (s1, Outcome.ok)
  | (s1, Outcome.thrown _) => (s1, Outcome.ok)

end HomepageSpec

namespace DataModelBlueprint

/-- The try-block of dismissCookieBanner in
tests/data-model-blueprint.spec.ts (lines 458-463). -/
def tryDismissCookieBanner (env : PageEnv) (s : PageState) : PageState × Outcome :=
  match waitFor (fun t => env.visible s.clicks t) 5000 s.time with
  | (t1, false) => ({ s with time := t1 }, Outcome.thrown PwError.timeout)
  | (t1, true) =>
    match clickAllowAll env { s with time := t1 } with
    | (s2, false) => (s2, Outcome.thrown PwError.clickError)
    | (s2, true) =>
      match waitFor (fun t => !env.visible s2.clicks t) 3000 s2.time with
      | (t3, false) => ({ s2 with time := t3 }, Outcome.thrown PwError.timeout)
      | (t3, true) => ({ s2 with time := t3 }, Outcome.ok)

/-- dismissCookieBanner in tests/data-model-blueprint.spec.ts (lines
457-467): the try-block under a catch (error) that swallows any
exception. -/
def dismissCookieBanner (env : PageEnv) (s : PageState) : PageState × Outcome :=
  match tryDismissCookieBanner env s with
  | (s1, Outcome.ok) => (s1, Outcome.ok)
  | (s1, Outcome.thrown _) => (s1, Outcome.ok)

end DataModelBlueprint

/-! ## Polling lemmas -/

/-- If the predicate fails at every probed instant, the poll times out at the
instant after its last probe. -/
theorem waitFor_timeout (p : Nat → Bool) (fuel t : Nat)
    (h : ∀ i, i < fuel → p (t + i) = false) :
    waitFor p fuel t = (t + fuel, false) := by
  induction fuel generalizing t with
  | zero => simp [waitFor]
  | succ n ih =>
    have h0 : p t = false := by simpa using h 0 (Nat.succ_pos n)
    have hrest : ∀ i, i < n → p (t + 1 + i) = false := by
      intro i hi
      have := h (i + 1) (Nat.succ_lt_succ hi)
      have harith : t + (i + 1) = t + 1 + i := by omega
      rwa [harith] at this
    have harith : t + 1 + n = t + (n + 1) := by omega
    rw [waitFor, h0]
    simp only [Bool.false_eq_true, if_false, ih (t + 1) hrest, harith]

/-- If the predicate first holds at the i-th probed instant within the
bound, the poll succeeds there. -/
theorem waitFor_first_true (p : Nat → Bool) (fuel t i : Nat) (hi : i < fuel)
    (hbefore : ∀ j, j < i → p (t + j) = false) (hp : p (t + i) = true) :
    waitFor p fuel t = (t + i, true) := by
  induction fuel generalizing t i with
  | zero => exact absurd hi (Nat.not_lt_zero i)
  | succ n ih =>
    rcases i with _ | j
    · have h0 : p t = true := by simpa using hp
      rw [waitFor, h0]
      simp
    · have h0 : p t = false := by simpa using hbefore 0 (Nat.succ_pos j)
      have hj : j < n := Nat.lt_of_succ_lt_succ hi
      have hrest : ∀ k, k < j → p (t + 1 + k) = false := by
        intro k hk
        have := hbefore (k + 1) (Nat.succ_lt_succ hk)
        have harith : t + (k + 1) = t + 1 + k := by omega
        rwa [harith] at this
      have hpj : p (t + 1 + j) = true := by
        have harith : t + (j + 1) = t + 1 + j := by omega
        rwa [harith] at hp
      have harith : t + 1 + j = t + (j + 1) := by omega
      rw [waitFor, h0]
      simp only [Bool.false_eq_true, if_false, ih (t + 1) j hj hrest hpj, harith]

/-! ## Shape lemmas for the try-block and the catch wrapper -/

/-- The catch wrapper returns the try-block's final page state and always
returns normally. -/
theorem dismiss_eq_tryDismiss_fst (env : PageEnv) (s : PageState) :
    Utils.dismissCookieBanner env s =
      ((Utils.tryDismissCookieBanner env s).1, Outcome.ok) := by
  unfold Utils.dismissCookieBanner
  rcases h : Utils.tryDismissCookieBanner env s with ⟨s1, o⟩
  cases o <;> rfl

/-- If the "allow all" control stays invisible through the whole 5000-unit
window, the try-block times out with the clock advanced by 5000 and the page
otherwise untouched. -/
theorem tryDismiss_timeout_eq (env : PageEnv) (s : PageState)
    (h : ∀ i, i < 5000 → env.visible s.clicks (s.time + i) = false) :
    Utils.tryDismissCookieBanner env s =
      ({ s with time := s.time + 5000 }, Outcome.thrown PwError.timeout) := by
  unfold Utils.tryDismissCookieBanner
  rw [waitFor_timeout _ _ _ h]

/-- If the control first becomes visible at probe i of the 5000-unit window
and the click succeeds, the try-block clicks exactly once at that instant and
then runs the 3000-unit hidden-poll from there. -/
theorem tryDismiss_clicked_eq (env : PageEnv) (s : PageState) (i : Nat)
    (hi : i < 5000)
    (hbefore : ∀ j, j < i → env.visible s.clicks (s.time + j) = false)
    (hvis : env.visible s.clicks (s.time + i) = true)
    (hclick : env.clickOk (s.time + i) = true) :
    Utils.tryDismissCookieBanner env s =
      ({ time := (waitFor (fun t => !env.visible (s.clicks ++ [s.time + i]) t) 3000
            (s.time + i)).1
         clicks := s.clicks ++ [s.time + i] },
       if (waitFor (fun t => !env.visible (s.clicks ++ [s.time + i]) t) 3000
            (s.time + i)).2
       then Outcome.ok else Outcome.thrown PwError.timeout) := by
  unfold Utils.tryDismissCookieBanner
  rw [waitFor_first_true _ _ _ _ hi hbefore hvis]
  simp only [clickAllowAll, hclick, if_true]
  rcases hw : waitFor (fun t => !env.visible (s.clicks ++ [s.time + i]) t) 3000
      (s.time + i) with ⟨t3, b3⟩
  cases b3 <;> rfl

/-- A page on which the "allow all" control never becomes visible and clicks
always succeed. -/
def envNoBanner : PageEnv :=
  { visible := fun _ _ => false, clickOk := fun _ => true }

/-- Claim C2: dismissCookieBanner always returns normally — every internal
timeout or exception is caught — and on a page where the dismissal control
never appears it completes at the end of its bounded 5000-unit wait with no
error and the page untouched. -/
theorem dismissCookieBanner_never_propagates (env : PageEnv) (s : PageState) :
    (Utils.dismissCookieBanner env s).2 = Outcome.ok ∧
    ((∀ t, env.visible s.clicks t = false) →
      Utils.dismissCookieBanner env s = ({ s with time := s.time + 5000 }, Outcome.ok)) := by
  constructor
  · rw [dismiss_eq_tryDismiss_fst]
  · intro h
    rw [dismiss_eq_tryDismiss_fst, tryDismiss_timeout_eq env s (fun i _ => h (s.time + i))]

/-- Witness for the Claim C2 theorem on the concrete bannerless page. -/
theorem dismissCookieBanner_never_propagates_witness :
    (∀ t, envNoBanner.visible ([] : List Nat) t = false) ∧
    Utils.dismissCookieBanner envNoBanner { time := 0, clicks := [] } =
      ({ time := 0 + 5000, clicks := [] }, Outcome.ok) :=
  ⟨fun _ => rfl,
    (dismissCookieBanner_never_propagates envNoBanner { time := 0, clicks := [] }).2
      (fun _ => rfl)⟩

/-- Claim C4: the gate polls for the control for up to 5000 units; if it
never becomes visible in that window the gate performs no click and finishes,
error-free, when the window closes; if it first becomes visible at some probe
within the window (and the click goes through), the gate clicks exactly once
at that instant and then polls for disappearance for up to 3000 units, again
returning without error. -/
theorem dismissCookieBanner_follows_protocol (env : PageEnv) (s : PageState) :
    ((∀ i, i < 5000 → env.visible s.clicks (s.time + i) = false) →
      Utils.dismissCookieBanner env s = ({ s with time := s.time + 5000 }, Outcome.ok)) ∧
    (∀ i, i < 5000 →
      (∀ j, j < i → env.visible s.clicks (s.time + j) = false) →
      env.visible s.clicks (s.time + i) = true →
      env.clickOk (s.time + i) = true →
      (Utils.dismissCookieBanner env s).1.clicks = s.clicks ++ [s.time + i] ∧
      (Utils.dismissCookieBanner env s).2 = Outcome.ok ∧
      (Utils.dismissCookieBanner env s).1.time =
        (waitFor (fun t => !env.visible (s.clicks ++ [s.time + i]) t) 3000
          (s.time + i)).1) := by
  constructor
  · intro h
    rw [dismiss_eq_tryDismiss_fst, tryDismiss_timeout_eq env s h]
  · intro i hi hbefore hvis hclick
    rw [dismiss_eq_tryDismiss_fst, tryDismiss_clicked_eq env s i hi hbefore hvis hclick]
    exact ⟨rfl, rfl, rfl⟩

/-- A page on which the control appears at instant 2, clicks succeed, and a
click on the control hides it immediately. -/
def envAppearsAt2 : PageEnv :=
  { visible := fun log t => decide (2 ≤ t) && log.isEmpty, clickOk := fun _ => true }

/-- Witness for the Claim C4 theorem: both branches exercised — on the
bannerless page no click happens, and on a page whose control appears at
instant 2 the gate clicks it there. -/
theorem dismissCookieBanner_follows_protocol_witness :
    ((∀ i, i < 5000 → envNoBanner.visible ([] : List Nat) (0 + i) = false) ∧
      Utils.dismissCookieBanner envNoBanner { time := 0, clicks := [] } =
        ({ time := 0 + 5000, clicks := [] }, Outcome.ok)) ∧
    ((2 : Nat) < 5000 ∧
      (∀ j, j < 2 → envAppearsAt2.visible ([] : List Nat) (0 + j) = false) ∧
      envAppearsAt2.visible ([] : List Nat) (0 + 2) = true ∧
      envAppearsAt2.clickOk (0 + 2) = true ∧
      (Utils.dismissCookieBanner envAppearsAt2 { time := 0, clicks := [] }).1.clicks =
        [] ++ [0 + 2] ∧
      (Utils.dismissCookieBanner envAppearsAt2 { time := 0, clicks := [] }).2 =
        Outcome.ok ∧
      (Utils.dismissCookieBanner envAppearsAt2 { time := 0, clicks := [] }).1.time =
        (waitFor (fun t => !envAppearsAt2.visible (([] : List Nat) ++ [0 + 2]) t) 3000
          (0 + 2)).1) := by
  refine ⟨⟨fun _ _ => rfl, ?_⟩, by decide, by decide, by decide, by decide, ?_⟩
  · exact (dismissCookieBanner_follows_protocol envNoBanner { time := 0, clicks := [] }).1
      (fun _ _ => rfl)
  · exact (dismissCookieBanner_follows_protocol envAppearsAt2 { time := 0, clicks := [] }).2
      2 (by decide) (by decide) (by decide) (by decide)

/-- Claim C9: the gate's only possible effect on the page is at most one
click on the "allow all" control — the click list either is unchanged or
gains exactly one entry — it never raises a failure toward the calling test,
and when the control never becomes visible within the 5000-unit bound the
click list is left exactly unchanged. -/
theorem dismissCookieBanner_frame_condition (env : PageEnv) (s : PageState) :
    (Utils.dismissCookieBanner env s).2 = Outcome.ok ∧
    ((Utils.dismissCookieBanner env s).1.clicks = s.clicks ∨
      ∃ t, (Utils.dismissCookieBanner env s).1.clicks = s.clicks ++ [t]) ∧
    ((∀ i, i < 5000 → env.visible s.clicks (s.time + i) = false) →
      (Utils.dismissCookieBanner env s).1.clicks = s.clicks) := by
  refine ⟨by rw [dismiss_eq_tryDismiss_fst], ?_, ?_⟩
  · rw [dismiss_eq_tryDismiss_fst]
    unfold Utils.tryDismissCookieBanner clickAllowAll
    split
    · exact Or.inl rfl
    · rename_i t1 heq1
      split
      · rename_i s2 heq2
        split at heq2
        · simp at heq2
        · injection heq2 with hs2 hb
          subst hs2
          exact Or.inl rfl
      · rename_i s2 heq2
        split at heq2
        · injection heq2 with hs2 hb
          subst hs2
          split
          · exact Or.inr ⟨t1, rfl⟩
          · exact Or.inr ⟨t1, rfl⟩
        · simp at heq2
  · intro h
    rw [dismiss_eq_tryDismiss_fst, tryDismiss_timeout_eq env s h]

/-- Witness for the Claim C9 theorem on the concrete bannerless page. -/
theorem dismissCookieBanner_frame_condition_witness :
    (∀ i, i < 5000 → envNoBanner.visible ([] : List Nat) (0 + i) = false) ∧
    (Utils.dismissCookieBanner envNoBanner { time := 0, clicks := [] }).1.clicks = [] :=
  ⟨fun _ _ => rfl,
    (dismissCookieBanner_frame_condition envNoBanner { time := 0, clicks := [] }).2.2
      (fun _ _ => rfl)⟩

/-- Claim C10: the four independently maintained copies of
dismissCookieBanner — tests/utils.ts, the unnamed module,
tests/homepage.spec.ts and tests/data-model-blueprint.spec.ts — are the same
function of the page: same locator, same 5000-unit visible-wait, same single
click, same 3000-unit hidden-wait, same catch-all, so any copy may replace
any other. -/
theorem dismissCookieBanner_copies_equivalent :
    Utils.dismissCookieBanner = Part000.dismissCookieBanner ∧
    Utils.dismissCookieBanner = HomepageSpec.dismissCookieBanner ∧
    Utils.dismissCookieBanner = DataModelBlueprint.dismissCookieBanner :=
  ⟨rfl, rfl, rfl⟩

/-- A page whose "allow all" control is visible at every instant no matter
what is clicked, with clicks succeeding. -/
def stubbornEnv : PageEnv :=
  { visible := fun _ _ => true, clickOk := fun _ => true }

/-- Claim C5 counterexample: on a page whose control stays visible forever,
the gate sees the control, clicks it (exactly one click, at instant 0), and
nevertheless returns control to the scenario at instant 3000 with the banner
still visible — the hidden-wait timeout is swallowed, so the return is not
conditioned on the dismissal being confirmed hidden. -/
theorem dismissCookieBanner_returns_with_banner_visible :
    Utils.dismissCookieBanner stubbornEnv { time := 0, clicks := [] } =
      ({ time := 3000, clicks := [0] }, Outcome.ok) ∧
    stubbornEnv.visible [0] 3000 = true := by
  have hw : waitFor (fun t => !stubbornEnv.visible (([] : List Nat) ++ [0 + 0]) t) 3000
      (0 + 0) = (0 + 0 + 3000, false) :=
    waitFor_timeout _ _ _ (fun _ _ => rfl)
  constructor
  · rw [dismiss_eq_tryDismiss_fst,
      tryDismiss_clicked_eq stubbornEnv { time := 0, clicks := [] } 0 (by decide)
        (fun j hj => absurd hj (Nat.not_lt_zero j)) rfl rfl, hw]
    rfl
  · rfl

/-- Claim C5 (amended): when the control is present and clicked, the gate
runs the hidden-poll before returning, and in every scenario where the
clicked control does become hidden within the 3000-unit bound, the gate
returns only at the instant it has observed the control hidden — so at the
moment control returns to the scenario the banner is gone; only when the
control never becomes hidden within the bound does the gate return with the
timeout swallowed. -/
theorem dismissCookieBanner_confirms_hidden_within_bound
    (env : PageEnv) (s : PageState) (i j : Nat)
    (hi : i < 5000)
    (hbefore : ∀ k, k < i → env.visible s.clicks (s.time + k) = false)
    (hvis : env.visible s.clicks (s.time + i) = true)
    (hclick : env.clickOk (s.time + i) = true)
    (hj : j < 3000)
    (hjbefore : ∀ k, k < j → env.visible (s.clicks ++ [s.time + i]) (s.time + i + k) = true)
    (hjhid : env.visible (s.clicks ++ [s.time + i]) (s.time + i + j) = false) :
    Utils.dismissCookieBanner env s =
      ({ time := s.time + i + j, clicks := s.clicks ++ [s.time + i] }, Outcome.ok) ∧
    env.visible (Utils.dismissCookieBanner env s).1.clicks
      (Utils.dismissCookieBanner env s).1.time = false := by
  have hw : waitFor (fun t => !env.visible (s.clicks ++ [s.time + i]) t) 3000 (s.time + i)
      = (s.time + i + j, true) :=
    waitFor_first_true _ _ _ _ hj (fun k hk => by simp [hjbefore k hk])
      (by simp [hjhid])
  have hmain : Utils.dismissCookieBanner env s =
      ({ time := s.time + i + j, clicks := s.clicks ++ [s.time + i] }, Outcome.ok) := by
    rw [dismiss_eq_tryDismiss_fst,
      tryDismiss_clicked_eq env s i hi hbefore hvis hclick, hw]
  refine ⟨hmain, ?_⟩
  rw [hmain]
  exact hjhid

/-- A page whose control is visible from the start, whose clicks succeed,
and which hides the control two instants after it has been clicked. -/
def envHidesAfterClick : PageEnv :=
  { visible := fun log t => log.isEmpty || decide (t < 2), clickOk := fun _ => true }

/-- Witness for the amended Claim C5 theorem: the control is clicked at
instant 0 and observed hidden at instant 2, where the gate returns. -/
theorem dismissCookieBanner_confirms_hidden_within_bound_witness :
    ((0 : Nat) < 5000 ∧
      (∀ k, k < 0 → envHidesAfterClick.visible ([] : List Nat) (0 + k) = false) ∧
      envHidesAfterClick.visible ([] : List Nat) (0 + 0) = true ∧
      envHidesAfterClick.clickOk (0 + 0) = true ∧
      (2 : Nat) < 3000 ∧
      (∀ k, k < 2 →
        envHidesAfterClick.visible (([] : List Nat) ++ [0 + 0]) (0 + 0 + k) = true) ∧
      envHidesAfterClick.visible (([] : List Nat) ++ [0 + 0]) (0 + 0 + 2) = false) ∧
    (Utils.dismissCookieBanner envHidesAfterClick { time := 0, clicks := [] } =
        ({ time := 0 + 0 + 2, clicks := ([] : List Nat) ++ [0 + 0] }, Outcome.ok) ∧
      envHidesAfterClick.visible
        (Utils.dismissCookieBanner envHidesAfterClick { time := 0, clicks := [] }).1.clicks
        (Utils.dismissCookieBanner envHidesAfterClick { time := 0, clicks := [] }).1.time =
        false) :=
  ⟨⟨by decide, by decide, by decide, by decide, by decide, by decide, by decide⟩,
    dismissCookieBanner_confirms_hidden_within_bound envHidesAfterClick
      { time := 0, clicks := [] } 0 2 (by decide) (by decide) (by decide) (by decide)
      (by decide) (by decide) (by decide)⟩

/-! ## Click-visualizer instrumentation (tests/utils.ts) -/

/-- The page-side state the visualizer script reads and writes: the
`window.__clickVizInstalled` flag and how many times the overlay (style,
cursor dot, listeners) has actually been built. -/
structure WindowState where
  clickVizInstalled : Bool
  overlayInstallCount : Nat
deriving DecidableEq, Repr

/-- clickVisualizerScript (tests/utils.ts, lines 15-118): return immediately
when `window.__clickVizInstalled` is already set; otherwise set the flag and
build the overlay once. -/
def clickVisualizerScript (w : WindowState) : WindowState :=
  if w.clickVizInstalled then w
  else { clickVizInstalled := true, overlayInstallCount := w.overlayInstallCount + 1 }

/-- The window of a freshly navigated document: flag unset, no overlay. -/
def freshWindow : WindowState :=
  { clickVizInstalled := false, overlayInstallCount := 0 }

/-- One page handle as the visualizer sees it: the current document's window
and how many times clickVisualizerScript has been registered through
`page.addInitScript`. -/
structure BrowserPage where
  window : WindowState
  vizInitScripts : Nat
deriving DecidableEq, Repr

/-- `page.addInitScript(clickVisualizerScript)`: register the script to run
on every future navigation; the current document is untouched. -/
def addInitScript (p : BrowserPage) : BrowserPage :=
  { p with vizInitScripts := p.vizInitScripts + 1 }

/-- `page.evaluate(clickVisualizerScript)`: run the script in the current
document now. -/
def evaluateViz (p : BrowserPage) : BrowserPage :=
  { p with window := clickVisualizerScript p.window }

/-- injectClickVisualizer (tests/utils.ts, lines 129-135): register for
future navigations, then inject into the already-loaded page. -/
def injectClickVisualizer (p : BrowserPage) : BrowserPage :=
  evaluateViz (addInitScript p)

/-- Run the registered init scripts, in order, on a window. -/
def runInitScripts : Nat → WindowState → WindowState
  | 0, w => w
  | n + 1, w => runInitScripts n (clickVisualizerScript w)

/-- A navigation within the session: the document is replaced by a fresh one
on which every registered init script is re-run. -/
def navigate (p : BrowserPage) : BrowserPage :=
  { p with window := runInitScripts p.vizInitScripts freshWindow }

/-- The script leaves the window unchanged when the installed flag is
already set. -/
theorem clickVisualizerScript_installed (w : WindowState)
    (h : w.clickVizInstalled = true) : clickVisualizerScript w = w := by
  simp [clickVisualizerScript, h]

/-- After the script runs, the installed flag is set. -/
theorem clickVisualizerScript_sets_flag (w : WindowState) :
    (clickVisualizerScript w).clickVizInstalled = true := by
  unfold clickVisualizerScript
  split
  · assumption
  · rfl

/-- Init scripts do nothing on a window whose flag is already set. -/
theorem runInitScripts_installed (n : Nat) (w : WindowState)
    (h : w.clickVizInstalled = true) : runInitScripts n w = w := by
  induction n with
  | zero => rfl
  | succ k ih => rw [runInitScripts, clickVisualizerScript_installed w h, ih]

/-- Claim C7: the click-visualizer instrumentation is idempotent — a second
install on the same page leaves the document state exactly as after the
first, and from a fresh page a double install still builds the overlay
exactly once — and after any navigation on a page with at least one
registration the instrumentation re-arms itself: the fresh document ends up
with the flag set and the overlay built exactly once. -/
theorem injectClickVisualizer_idempotent_and_rearms (p : BrowserPage) :
    (injectClickVisualizer (injectClickVisualizer p)).window =
      (injectClickVisualizer p).window ∧
    (injectClickVisualizer (injectClickVisualizer
        { window := freshWindow, vizInitScripts := 0 })).window.overlayInstallCount = 1 ∧
    (0 < p.vizInitScripts →
      (navigate p).window =
        { clickVizInstalled := true, overlayInstallCount := 1 }) := by
  refine ⟨?_, rfl, ?_⟩
  · show clickVisualizerScript (clickVisualizerScript p.window) = clickVisualizerScript p.window
    exact clickVisualizerScript_installed _ (clickVisualizerScript_sets_flag p.window)
  · intro h
    obtain ⟨k, hk⟩ : ∃ k, p.vizInitScripts = k + 1 := ⟨p.vizInitScripts - 1, by omega⟩
    show runInitScripts p.vizInitScripts freshWindow = _
    rw [hk, runInitScripts]
    exact runInitScripts_installed k _ rfl

/-- Witness for the Claim C7 theorem on a page with one registration. -/
theorem injectClickVisualizer_idempotent_and_rearms_witness :
    0 < (1 : Nat) ∧
    (navigate { window := freshWindow, vizInitScripts := 1 }).window =
      { clickVizInstalled := true, overlayInstallCount := 1 } :=
  ⟨by decide,
    (injectClickVisualizer_idempotent_and_rearms
      { window := freshWindow, vizInitScripts := 1 }).2.2 (by decide)⟩

/-! ## Control-flow traces for the ordering guarantee

Each scenario is one sequential flow of awaited calls; the order in which
the gates' primitives are invoked is therefore fixed by the program text.
The traces below record, per run, the invocations the source performs in
order: the beforeEach of the suites (page.goto, then setupBaseState) and the
checkA11y helper (setupBaseState, then the axe analysis, then the severity
assertion).  Which banner events occur depends on the page environment,
mirroring the branch structure of the try-block. -/

/-- One invocation the suite performs, in program order. -/
inductive Event where
  | navigated
  | vizInitRegistered
  | vizInjected
  | bannerWaitVisible
  | bannerClicked
  | bannerWaitHidden
  | axeAnalyzed
  | a11yAsserted
  | contentAsserted
deriving DecidableEq, Repr

/-- The invocations one dismissCookieBanner run performs, in order: the
visible-wait always; the click only when the visible-wait succeeded; the
hidden-wait only when the click returned. -/
def dismissCookieBannerEvents (env : PageEnv) (s : PageState) : List Event :=
  match waitFor (fun t => env.visible s.clicks t) 5000 s.time with
  | (_, false) => [Event.bannerWaitVisible]
  | (t1, true) =>
    match clickAllowAll env { s with time := t1 } with
    | (_, false) => [Event.bannerWaitVisible, Event.bannerClicked]
    | (_, true) =>
      [Event.bannerWaitVisible, Event.bannerClicked, Event.bannerWaitHidden]

/-- The invocations of setupBaseState (tests/utils.ts, lines 158-161):
injectClickVisualizer — addInitScript, then evaluate — then
dismissCookieBanner. -/
def setupBaseStateEvents (env : PageEnv) (s : PageState) : List Event :=
  [Event.vizInitRegistered, Event.vizInjected] ++ dismissCookieBannerEvents env s

/-- The invocations of one checkA11y run (tests/navigation.spec.ts, lines
140-159): setupBaseState, then the axe analysis, then the severity
assertion. -/
def checkA11yEvents (env : PageEnv) (s : PageState) : List Event :=
  setupBaseStateEvents env s ++ [Event.axeAnalyzed, Event.a11yAsserted]

/-- The invocations of one Header Navigation scenario
(tests/navigation.spec.ts, lines 27-37): page.goto, setupBaseState in
beforeEach, then the test body's content assertion. -/
def headerNavScenarioEvents (env : PageEnv) (s : PageState) : List Event :=
  Event.navigated :: (setupBaseStateEvents env s ++ [Event.contentAsserted])

/-- A dismissCookieBanner run invokes one of exactly three prefixes of the
wait-click-wait sequence. -/
theorem dismissCookieBannerEvents_cases (env : PageEnv) (s : PageState) :
    dismissCookieBannerEvents env s = [Event.bannerWaitVisible] ∨
    dismissCookieBannerEvents env s = [Event.bannerWaitVisible, Event.bannerClicked] ∨
    dismissCookieBannerEvents env s =
      [Event.bannerWaitVisible, Event.bannerClicked, Event.bannerWaitHidden] := by
  unfold dismissCookieBannerEvents
  split
  · exact Or.inl rfl
  · split
    · exact Or.inr (Or.inl rfl)
    · exact Or.inr (Or.inr rfl)

/-- Claim C8: in every scenario, every invocation belonging to the
Page-Readiness Gate (visualizer install and banner dismissal, by success or
benign timeout) occurs strictly before the axe analysis pass of the
Accessibility Audit Gate, and strictly before the scenario's content
assertion. -/
theorem setupBaseState_completes_before_audit_and_asserts (env : PageEnv) (s : PageState) :
    (∀ e, e ∈ setupBaseStateEvents env s →
      (checkA11yEvents env s).indexOf e <
        (checkA11yEvents env s).indexOf Event.axeAnalyzed) ∧
    (∀ e, e ∈ setupBaseStateEvents env s →
      (headerNavScenarioEvents env s).indexOf e <
        (headerNavScenarioEvents env s).indexOf Event.contentAsserted) := by
  unfold checkA11yEvents headerNavScenarioEvents setupBaseStateEvents
  rcases dismissCookieBannerEvents_cases env s with h | h | h <;> rw [h] <;>
    exact ⟨by decide, by decide⟩

/-- Helper for the Claim C8 witness: on the bannerless page the readiness
trace is the visualizer install followed by the benign visible-wait. -/
theorem setupBaseStateEvents_noBanner :
    setupBaseStateEvents envNoBanner { time := 0, clicks := [] } =
      [Event.vizInitRegistered, Event.vizInjected, Event.bannerWaitVisible] := by
  unfold setupBaseStateEvents dismissCookieBannerEvents
  rw [waitFor_timeout _ _ _ (fun _ _ => rfl)]
  rfl

/-- Witness for the Claim C8 theorem: on the bannerless page, the banner
visible-wait occurs before the axe analysis. -/
theorem setupBaseState_completes_before_audit_and_asserts_witness :
    Event.bannerWaitVisible ∈ setupBaseStateEvents envNoBanner { time := 0, clicks := [] } ∧
    (checkA11yEvents envNoBanner { time := 0, clicks := [] }).indexOf
        Event.bannerWaitVisible <
      (checkA11yEvents envNoBanner { time := 0, clicks := [] }).indexOf
        Event.axeAnalyzed :=
  ⟨by rw [setupBaseStateEvents_noBanner]; decide,
    (setupBaseState_completes_before_audit_and_asserts envNoBanner
        { time := 0, clicks := [] }).1 Event.bannerWaitVisible
      (by rw [setupBaseStateEvents_noBanner]; decide)⟩
